import Mathlib

/-!
Verification of the courier/parcel booking application core
(booking cost calculator, booking/payment lifecycle, authentication,
feedback pagination/filter adapter), shallowly embedded in Lean 4.

Numeric conventions: the frontend computes with JavaScript numbers; for the
magnitudes involved (integral rupee charges, weight in grams up to 50000,
five percent tax) the computation is modelled exactly over the rationals,
and JavaScript Math.round (round half toward positive infinity) is modelled
as jsRound.
-/

namespace Courier

/-- JavaScript Math.round: round half toward positive infinity. -/
def jsRound (q : ℚ) : ℤ := (q + 1/2).floor

theorem jsRound_eq_floor (q : ℚ) : jsRound q = ⌊q + 1/2⌋ := by
  rw [jsRound, Rat.floor_def, Rat.floor_def']

theorem jsRound_mono {q r : ℚ} (h : q ≤ r) : jsRound q ≤ jsRound r := by
  rw [jsRound_eq_floor, jsRound_eq_floor]
  exact Int.floor_le_floor (by linarith)

/-- Delivery charge switch from officer-booking.component.ts calculateCost:
STANDARD 30, EXPRESS 80, SAME_DAY 150, default 30. -/
def deliveryChargeOf (deliveryType : String) : ℚ :=
  if deliveryType = "STANDARD" then 30
  else if deliveryType = "EXPRESS" then 80
  else if deliveryType = "SAME_DAY" then 150
  else 30

/-- Packing charge switch from officer-booking.component.ts calculateCost:
BASIC 10, PREMIUM 20, default 10. -/
def packingChargeOf (packingType : String) : ℚ :=
  if packingType = "BASIC" then 10
  else if packingType = "PREMIUM" then 20
  else 10

/-- Base rate constant from officer-booking.component.ts (baseRate = 50). -/
def baseRate : ℚ := 50

/-- Admin fee. The officer booking component carries adminFee = 50 as a fixed
field and always adds it. Modelled from the spec: the customer self-service
booking path is not part of the sources; per the spec formula the adminFee is
"applied whenever the officer-assisted flag is true (officer bookings only);
customer self-service bookings in the observed flow omit this fee". -/
def adminFeeOf (officer : Bool) : ℚ := if officer then 50 else 0

/-- The cost components computed by calculateCost, mirroring the component
fields weightCharge, deliveryCharge, packingCharge, subtotal, taxAmount and
calculatedCost of OfficerBookingComponent. -/
structure CostBreakdown where
  weightCharge : ℚ
  deliveryCharge : ℚ
  packingCharge : ℚ
  subtotal : ℚ
  taxAmount : ℚ
  calculatedCost : ℤ
deriving DecidableEq

/-- Validity of the weight form control, from the reactive form declaration
weight: Validators.required, Validators.min(100), Validators.max(50000).
A missing value (none) fails the required validator. -/
def weightFieldValid : Option ℚ → Bool
  | none => false
  | some w => decide (100 ≤ w) && decide (w ≤ 50000)

/-- calculateCost from officer-booking.component.ts: early exit resetting all
components to 0 when the weight control is invalid; otherwise weight charge at
0.02 per gram, the delivery/packing switches, subtotal including base rate and
admin fee, 5 percent tax, and Math.round of subtotal plus tax.
The officer flag selects the admin fee (see adminFeeOf). -/
def calculateCost (weight : Option ℚ) (deliveryType packingType : String)
    (officer : Bool) : CostBreakdown :=
  if weightFieldValid weight then
    let w := weight.getD 0
    let weightCharge := w * (2/100)
    let deliveryCharge := deliveryChargeOf deliveryType
    let packingCharge := packingChargeOf packingType
    let subtotal := baseRate + weightCharge + deliveryCharge + packingCharge + adminFeeOf officer
    let taxAmount := subtotal * (5/100)
    { weightCharge := weightCharge
      deliveryCharge := deliveryCharge
      packingCharge := packingCharge
      subtotal := subtotal
      taxAmount := taxAmount
      calculatedCost := jsRound (subtotal + taxAmount) }
  else
    { weightCharge := 0, deliveryCharge := 0, packingCharge := 0,
      subtotal := 0, taxAmount := 0, calculatedCost := 0 }

/-- When the weight control is valid, calculateCost takes the formula branch. -/
theorem calculateCost_valid (w : ℚ) (h1 : 100 ≤ w) (h2 : w ≤ 50000)
    (d p : String) (o : Bool) :
    calculateCost (some w) d p o =
      { weightCharge := w * (2/100)
        deliveryCharge := deliveryChargeOf d
        packingCharge := packingChargeOf p
        subtotal := baseRate + w * (2/100) + deliveryChargeOf d + packingChargeOf p + adminFeeOf o
        taxAmount := (baseRate + w * (2/100) + deliveryChargeOf d + packingChargeOf p + adminFeeOf o) * (5/100)
        calculatedCost := jsRound
          ((baseRate + w * (2/100) + deliveryChargeOf d + packingChargeOf p + adminFeeOf o)
            + (baseRate + w * (2/100) + deliveryChargeOf d + packingChargeOf p + adminFeeOf o) * (5/100)) } := by
  have hv : weightFieldValid (some w) = true := by
    simp [weightFieldValid, h1, h2]
  simp [calculateCost, hv]

/-- C1: the cost for weight 1000 g, STANDARD delivery, BASIC packing, on a
non-officer (customer self-service) booking is 116, and it agrees with the
spec formula round((baseRate + weightCharge + deliveryCharge + packingCharge
+ adminFee) * (1 + taxRate)) with baseRate 50, weightCharge 1000 * 0.02,
STANDARD charge 30, BASIC charge 10, admin fee 0, tax rate 5 percent,
rounding half up. -/
theorem cost_1000_standard_basic_customer_is_116 :
    (calculateCost (some 1000) "STANDARD" "BASIC" false).calculatedCost = 116 ∧
    (calculateCost (some 1000) "STANDARD" "BASIC" false).calculatedCost =
      jsRound ((50 + 1000 * (2/100) + 30 + 10 + 0) * (1 + 5/100)) := by
  have h : (calculateCost (some 1000) "STANDARD" "BASIC" false).calculatedCost = 116 := by
    rw [calculateCost_valid 1000 (by norm_num) (by norm_num)]
    rw [show deliveryChargeOf "STANDARD" = 30 from rfl, show packingChargeOf "BASIC" = 10 from rfl]
    rw [show adminFeeOf false = 0 from rfl, baseRate, jsRound_eq_floor]
    norm_num [Int.floor_eq_iff]
  refine ⟨h, h.trans ?_⟩
  rw [jsRound_eq_floor]
  norm_num [Int.floor_eq_iff]

/-- The spec test vector for the officer path: cost(5000, EXPRESS, PREMIUM,
officer) = 315. -/
theorem cost_5000_express_premium_officer_is_315 :
    (calculateCost (some 5000) "EXPRESS" "PREMIUM" true).calculatedCost = 315 := by
  rw [calculateCost_valid 5000 (by norm_num) (by norm_num)]
  rw [show deliveryChargeOf "EXPRESS" = 80 from rfl, show packingChargeOf "PREMIUM" = 20 from rfl]
  rw [show adminFeeOf true = 50 from rfl, baseRate, jsRound_eq_floor]
  norm_num [Int.floor_eq_iff]

/-- C7: an unrecognized delivery type falls through the switch to STANDARD's
charge of 30, an unrecognized packing preference falls through to BASIC's
charge of 10, and consequently the whole cost calculation agrees with the
STANDARD/BASIC one. -/
theorem unrecognized_enum_defaults_to_standard_basic
    (w : Option ℚ) (d p : String) (o : Bool)
    (hd1 : d ≠ "STANDARD") (hd2 : d ≠ "EXPRESS") (hd3 : d ≠ "SAME_DAY")
    (hp1 : p ≠ "BASIC") (hp2 : p ≠ "PREMIUM") :
    deliveryChargeOf d = 30 ∧ deliveryChargeOf d = deliveryChargeOf "STANDARD" ∧
    packingChargeOf p = 10 ∧ packingChargeOf p = packingChargeOf "BASIC" ∧
    calculateCost w d p o = calculateCost w "STANDARD" "BASIC" o := by
  have h1 : deliveryChargeOf d = 30 := by simp [deliveryChargeOf, hd1, hd2, hd3]
  have h2 : packingChargeOf p = 10 := by simp [packingChargeOf, hp1, hp2]
  have h1s : deliveryChargeOf d = deliveryChargeOf "STANDARD" := by
    rw [h1]; rfl
  have h2s : packingChargeOf p = packingChargeOf "BASIC" := by
    rw [h2]; rfl
  refine ⟨h1, h1s, h2, h2s, ?_⟩
  unfold calculateCost
  rw [h1s, h2s]

/-- Witness for C7 at delivery type FOO and packing BAR. -/
theorem unrecognized_enum_defaults_witness :
    deliveryChargeOf "FOO" = 30 ∧ deliveryChargeOf "FOO" = deliveryChargeOf "STANDARD" ∧
    packingChargeOf "BAR" = 10 ∧ packingChargeOf "BAR" = packingChargeOf "BASIC" ∧
    calculateCost (some 1000) "FOO" "BAR" false = calculateCost (some 1000) "STANDARD" "BASIC" false :=
  unrecognized_enum_defaults_to_standard_basic (some 1000) "FOO" "BAR" false
    (by decide) (by decide) (by decide) (by decide) (by decide)

/-- C8: for fixed delivery type, packing preference and officer flag, the
computed total is monotonically non-decreasing in the weight, over the range
accepted by the weight validator. -/
theorem cost_monotone_in_weight (w1 w2 : ℚ) (d p : String) (o : Bool)
    (h100 : 100 ≤ w1) (h12 : w1 ≤ w2) (h50000 : w2 ≤ 50000) :
    (calculateCost (some w1) d p o).calculatedCost ≤
      (calculateCost (some w2) d p o).calculatedCost := by
  rw [calculateCost_valid w1 h100 (le_trans h12 h50000),
    calculateCost_valid w2 (le_trans h100 h12) h50000]
  exact jsRound_mono (by linarith)

/-- Witness for C8 at weights 100 and 200 g. -/
theorem cost_monotone_in_weight_witness :
    (calculateCost (some 100) "STANDARD" "BASIC" false).calculatedCost ≤
      (calculateCost (some 200) "STANDARD" "BASIC" false).calculatedCost :=
  cost_monotone_in_weight 100 200 "STANDARD" "BASIC" false
    (by decide) (by decide) (by decide)

/-- C9: whenever the weight field is invalid (missing, below the form minimum
of 100 g, or above the maximum of 50000 g), calculateCost resets the total and
every cost component to 0. -/
theorem invalid_weight_zeroes_all_components (w : Option ℚ) (d p : String) (o : Bool)
    (h : w = none ∨ ∃ v, w = some v ∧ (v < 100 ∨ 50000 < v)) :
    calculateCost w d p o =
      { weightCharge := 0, deliveryCharge := 0, packingCharge := 0,
        subtotal := 0, taxAmount := 0, calculatedCost := 0 } := by
  have hv : weightFieldValid w = false := by
    rcases h with rfl | ⟨v, rfl, hlo | hhi⟩
    · rfl
    · have hn : ¬ (100 ≤ v) := not_le.mpr hlo
      simp [weightFieldValid, hn]
    · have hn : ¬ (v ≤ 50000) := not_le.mpr hhi
      simp [weightFieldValid, hn]
  simp [calculateCost, hv]

/-- Witness for C9 at a missing weight. -/
theorem invalid_weight_zeroes_witness :
    calculateCost none "EXPRESS" "PREMIUM" true =
      { weightCharge := 0, deliveryCharge := 0, packingCharge := 0,
        subtotal := 0, taxAmount := 0, calculatedCost := 0 } :=
  invalid_weight_zeroes_all_components none "EXPRESS" "PREMIUM" true (Or.inl rfl)

/-! ## Authentication (AuthService.java) -/

/-- UserRole enum from the backend model. -/
inductive UserRole
  | CUSTOMER
  | OFFICER
deriving DecidableEq

/-- Customer entity (also represents officers via the role field). The
password field stores the hash produced by PasswordUtil.encode. -/
structure Customer where
  id : Nat
  customerName : String
  email : String
  countryCode : String
  mobileNumber : String
  address : String
  password : String
  role : UserRole
  uniqueId : String
  getUpdatesVia : String
deriving DecidableEq

/-- AuthResponse DTO: success flag, message, and the payload fields, which are
all null on failure responses. -/
structure AuthResponse where
  success : Bool
  message : String
  token : Option String := none
  id : Option Nat := none
  customerName : Option String := none
  email : Option String := none
  countryCode : Option String := none
  mobileNumber : Option String := none
  address : Option String := none
  role : Option String := none
  uniqueId : Option String := none
  getUpdatesVia : Option String := none
deriving DecidableEq

/-- A failure AuthResponse: success false, all payload fields null. -/
def AuthResponse.failure (msg : String) : AuthResponse :=
  { success := false, message := msg }

/-- LoginRequest DTO. The field is called email in the backend but carries the
uniqueId used as login identifier. -/
structure LoginRequest where
  email : String
  password : String
deriving DecidableEq

/-- CustomerRepository.findByUniqueId over the persisted customer table. -/
def findByUniqueId (store : List Customer) (uid : String) : Option Customer :=
  store.find? (fun c => c.uniqueId == uid)

/-- CustomerRepository.findByEmail over the persisted customer table. -/
def findByEmail (store : List Customer) (email : String) : Option Customer :=
  store.find? (fun c => c.email == email)

/-- String form of a role, as produced by UserRole.toString in Java. -/
def UserRole.str : UserRole → String
  | .CUSTOMER => "CUSTOMER"
  | .OFFICER => "OFFICER"

/-- AuthService.login. The password comparison (PasswordUtil) and the
token generator JwtUtil.generateToken are passed in as parameters (their
classes are library wrappers outside the modelled core); the control flow and
every response are taken from AuthService.login. -/
def login (pwMatches : String → String → Bool)
    (genToken : String → Nat → UserRole → String)
    (store : List Customer) (request : LoginRequest) : AuthResponse :=
  match findByUniqueId store request.email with
  | none => AuthResponse.failure "Invalid Customer ID or password"
  | some customer =>
    if customer.role ≠ UserRole.CUSTOMER then
      AuthResponse.failure
        "Access denied. Customer login required. Please use officer login for officer accounts."
    else if ¬ pwMatches request.password customer.password then
      AuthResponse.failure "Invalid Customer ID or password"
    else
      { success := true
        message := "Login successful"
        token := some (genToken customer.email customer.id customer.role)
        id := some customer.id
        customerName := some customer.customerName
        email := some customer.email
        countryCode := some customer.countryCode
        mobileNumber := some customer.mobileNumber
        address := some customer.address
        role := some customer.role.str
        uniqueId := some customer.uniqueId
        getUpdatesVia := some customer.getUpdatesVia }

/-- AuthService.officerLogin, modelled like login. -/
def officerLogin (pwMatches : String → String → Bool)
    (genToken : String → Nat → UserRole → String)
    (store : List Customer) (request : LoginRequest) : AuthResponse :=
  match findByUniqueId store request.email with
  | none => AuthResponse.failure "Invalid Officer ID or password"
  | some customer =>
    if customer.role ≠ UserRole.OFFICER then
      AuthResponse.failure "Access denied. Officer privileges required"
    else if ¬ pwMatches request.password customer.password then
      AuthResponse.failure "Invalid Officer ID or password"
    else
      { success := true
        message := "Login successful"
        token := some (genToken customer.email customer.id customer.role)
        id := some customer.id
        customerName := some customer.customerName
        email := some customer.email
        countryCode := some customer.countryCode
        mobileNumber := some customer.mobileNumber
        address := some customer.address
        role := some customer.role.str
        uniqueId := some customer.uniqueId
        getUpdatesVia := some customer.getUpdatesVia }

/-- A concrete password check used to instantiate the service parameters in
witnesses: raw password equals the stored reference. -/
def eqCheck : String → String → Bool := fun raw stored => raw == stored

/-- A concrete token generator used to instantiate the service parameters in
witnesses. -/
def tokenGen : String → Nat → UserRole → String := fun _ _ _ => "token"

/-- A sample officer account. -/
def officerSample : Customer :=
  { id := 1
    customerName := "Olivia"
    email := "olivia@courier.test"
    countryCode := "+91"
    mobileNumber := "9876543210"
    address := "12 Sorting Office Road, Pune"
    password := "officer-hash"
    role := UserRole.OFFICER
    uniqueId := "OFF10000001"
    getUpdatesVia := "EMAIL" }

/-- A sample customer account. -/
def custSample : Customer :=
  { id := 2
    customerName := "Charlie"
    email := "charlie@courier.test"
    countryCode := "+91"
    mobileNumber := "9123456780"
    address := "7 Harbour Lane, Kochi"
    password := "cust-hash"
    role := UserRole.CUSTOMER
    uniqueId := "CUST20000002"
    getUpdatesVia := "SMS" }

/-- A sample persisted user table holding one officer and one customer. -/
def authStore : List Customer := [officerSample, custSample]

/-- C5 counterexample: failed logins DO reveal whether the identifier exists.
A login with an absent uniqueId and a login with an existing uniqueId of the
wrong role both fail, but with different responses (generic invalid-credentials
versus a role-specific access-denied message), for customer login and officer
login alike. -/
theorem login_failures_reveal_identifier_existence :
    findByUniqueId authStore "CUST40400404" = none ∧
    findByUniqueId authStore "OFF10000001" = some officerSample ∧
    officerSample.role ≠ UserRole.CUSTOMER ∧
    (login eqCheck tokenGen authStore ⟨"CUST40400404", "pw"⟩).success = false ∧
    (login eqCheck tokenGen authStore ⟨"OFF10000001", "pw"⟩).success = false ∧
    login eqCheck tokenGen authStore ⟨"CUST40400404", "pw"⟩ ≠
      login eqCheck tokenGen authStore ⟨"OFF10000001", "pw"⟩ ∧
    (officerLogin eqCheck tokenGen authStore ⟨"OFF40400404", "pw"⟩).success = false ∧
    (officerLogin eqCheck tokenGen authStore ⟨"CUST20000002", "pw"⟩).success = false ∧
    officerLogin eqCheck tokenGen authStore ⟨"OFF40400404", "pw"⟩ ≠
      officerLogin eqCheck tokenGen authStore ⟨"CUST20000002", "pw"⟩ := by
  decide

/-- C5 amended: a failure caused by a wrong password is indistinguishable from
a failure caused by an unknown login identifier, for customer login (when the
stored account is a CUSTOMER) and for officer login (when it is an OFFICER);
wrong-role failures, by contrast, return a distinct access-denied response
(see the counterexample). -/
theorem wrong_password_indistinguishable_from_unknown_id
    (pwMatches : String → String → Bool)
    (genToken : String → Nat → UserRole → String)
    (store : List Customer) (r1 r2 : LoginRequest) (c : Customer)
    (h1 : findByUniqueId store r1.email = none)
    (h2 : findByUniqueId store r2.email = some c)
    (h3 : pwMatches r2.password c.password = false) :
    (c.role = UserRole.CUSTOMER →
      login pwMatches genToken store r1 = login pwMatches genToken store r2) ∧
    (c.role = UserRole.OFFICER →
      officerLogin pwMatches genToken store r1 = officerLogin pwMatches genToken store r2) := by
  constructor
  · intro hc
    unfold login
    rw [h1, h2]
    simp [hc, h3]
  · intro hc
    unfold officerLogin
    rw [h1, h2]
    simp [hc, h3]

/-- Witness for the amended C5: a wrong-password login for the sample customer
produces exactly the response of a login under an absent identifier. -/
theorem wrong_password_indistinguishable_witness :
    login eqCheck tokenGen authStore ⟨"CUST40400404", "wrong"⟩ =
      login eqCheck tokenGen authStore ⟨"CUST20000002", "wrong"⟩ :=
  (wrong_password_indistinguishable_from_unknown_id eqCheck tokenGen authStore
    ⟨"CUST40400404", "wrong"⟩ ⟨"CUST20000002", "wrong"⟩ custSample
    (by decide) (by decide) (by decide)).1 rfl

/-- RegisterRequest DTO. -/
structure RegisterRequest where
  customerName : String
  email : String
  countryCode : String
  mobileNumber : String
  address : String
  password : String
  role : String
  preferences : String
deriving DecidableEq

/-- Java UserRole.valueOf: parses CUSTOMER or OFFICER, anything else throws
(modelled as none, surfaced by the catch-all in register). -/
def UserRole.valueOf (s : String) : Option UserRole :=
  if s = "CUSTOMER" then some UserRole.CUSTOMER
  else if s = "OFFICER" then some UserRole.OFFICER
  else none

/-- AuthService.register. The password hash (PasswordUtil.encode), the token
generator, the clock reading and the random suffix feeding the generated
uniqueId, and the database-assigned numeric id are passed as parameters; the
duplicate-email check, the constructed customer row and every response come
from AuthService.register. -/
def register (hash : String → String)
    (genToken : String → Nat → UserRole → String)
    (nowMillis rand3 nextId : Nat)
    (store : List Customer) (request : RegisterRequest) :
    List Customer × AuthResponse :=
  if (findByEmail store request.email).isSome then
    (store, AuthResponse.failure "Email already registered")
  else
    match UserRole.valueOf request.role with
    | none =>
      (store, AuthResponse.failure
        ("Registration failed: No enum constant com.courier.model.UserRole." ++ request.role))
    | some role =>
      let rolePrefix := if role = UserRole.CUSTOMER then "CUST" else "OFF"
      let uniqueId := rolePrefix ++ (toString nowMillis).drop 8 ++ toString rand3
      let customer : Customer :=
        { id := nextId
          customerName := request.customerName
          email := request.email
          countryCode := request.countryCode
          mobileNumber := request.mobileNumber
          address := request.address
          password := hash request.password
          role := role
          uniqueId := uniqueId
          getUpdatesVia := request.preferences }
      (store ++ [customer],
        { success := true
          message := "Registration successful for: " ++ customer.customerName
          token := some (genToken customer.email customer.id customer.role)
          id := some customer.id
          customerName := some customer.customerName
          email := some customer.email
          countryCode := some customer.countryCode
          mobileNumber := some customer.mobileNumber
          address := some customer.address
          role := some customer.role.str
          uniqueId := some customer.uniqueId
          getUpdatesVia := some customer.getUpdatesVia })

/-- C6: registration preserves email uniqueness; in particular, registering
with an email that already belongs to an existing user returns the
"Email already registered" failure and leaves the customer table unchanged. -/
theorem register_preserves_email_uniqueness
    (hash : String → String) (genToken : String → Nat → UserRole → String)
    (nowMillis rand3 nextId : Nat)
    (store : List Customer) (request : RegisterRequest)
    (hnd : (store.map Customer.email).Nodup) :
    ((register hash genToken nowMillis rand3 nextId store request).1.map Customer.email).Nodup ∧
    ((∃ c ∈ store, c.email = request.email) →
      (register hash genToken nowMillis rand3 nextId store request).1 = store ∧
      (register hash genToken nowMillis rand3 nextId store request).2 =
        AuthResponse.failure "Email already registered") := by
  constructor
  · by_cases hdup : (findByEmail store request.email).isSome
    · simp [register, hdup, hnd]
    · have hnone : findByEmail store request.email = none :=
        Option.not_isSome_iff_eq_none.mp hdup
      have hnotin : request.email ∉ store.map Customer.email := by
        intro hmem
        obtain ⟨c, hc, hce⟩ := List.mem_map.mp hmem
        have := List.find?_eq_none.mp hnone c hc
        simp [hce] at this
      cases hrole : UserRole.valueOf request.role with
      | none => simp [register, hdup, hrole, hnd]
      | some role =>
        simp only [register, hdup, Bool.false_eq_true, if_false, hrole, List.map_append,
          List.map_cons, List.map_nil]
        rw [List.nodup_append]
        refine ⟨hnd, List.nodup_singleton _, ?_⟩
        intro x hx hx1
        rcases List.mem_singleton.mp hx1 with rfl
        exact hnotin hx
  · intro ⟨c, hc, hce⟩
    have hsome : (findByEmail store request.email).isSome := by
      apply List.find?_isSome.mpr
      exact ⟨c, hc, by simp [hce]⟩
    simp [register, hsome]

/-- A registration request reusing the sample customer email. -/
def dupEmailRequest : RegisterRequest :=
  { customerName := "Dana"
    email := "charlie@courier.test"
    countryCode := "+91"
    mobileNumber := "9000000000"
    address := "3 Canal Street, Surat"
    password := "pw"
    role := "CUSTOMER"
    preferences := "EMAIL" }

/-- Witness for C6: registering with the already-used sample email leaves the
table unchanged, fails with the duplicate-email response, and the emails stay
unique. -/
theorem register_preserves_email_uniqueness_witness :
    ((register (fun s => s) tokenGen 1754400000000 123 3 authStore dupEmailRequest).1.map
      Customer.email).Nodup ∧
    (register (fun s => s) tokenGen 1754400000000 123 3 authStore dupEmailRequest).1 = authStore ∧
    (register (fun s => s) tokenGen 1754400000000 123 3 authStore dupEmailRequest).2 =
      AuthResponse.failure "Email already registered" := by
  have t := register_preserves_email_uniqueness (fun s => s) tokenGen 1754400000000 123 3
    authStore dupEmailRequest (by decide)
  have h := t.2 ⟨custSample, by decide, rfl⟩
  exact ⟨t.1, h.1, h.2⟩

/-! ## Booking lifecycle and payment processing
(BookingService, PaymentController) -/

/-- ParcelStatus enum. -/
inductive ParcelStatus
  | NEW
  | BOOKED
  | IN_TRANSIT
  | DELIVERED
  | CANCELLED
deriving DecidableEq

/-- Booking entity, reduced to the fields the payment flow touches: the
externally visible bookingId and the parcel status. -/
structure Booking where
  bookingId : String
  parcelStatus : ParcelStatus
deriving DecidableEq

/-- Payment entity, reduced to its link to the booking. -/
structure Payment where
  bookingId : String
deriving DecidableEq

/-- The persisted rows the payment flow reads and writes. -/
structure SysState where
  bookings : List Booking
  payments : List Payment
deriving DecidableEq

/-- BookingService.getBookingById: findByBookingId(bookingId).orElse(null)
wrapped in a catch-all, so it is total and returns none rather than failing. -/
def BookingService.getBookingById (st : SysState) (bookingId : String) : Option Booking :=
  st.bookings.find? (fun b => b.bookingId == bookingId)

/-- BookingService.updateBooking: repository save of the mutated entity,
replacing the row with the same bookingId. -/
def BookingService.updateBooking (st : SysState) (b : Booking) : SysState :=
  { st with bookings := st.bookings.map (fun old => if old.bookingId == b.bookingId then b else old) }

/-- Modelled from the spec: PaymentService.processPayment is not among the
source files (only its caller PaymentController is). Per the spec, payment
processing "persists a Payment record" and "rejects if a Payment already
exists for the booking"; the rejection is an exception caught by the
controller. -/
def PaymentService.processPayment (st : SysState) (booking : Booking) :
    Except String (SysState × Payment) :=
  if st.payments.any (fun p => p.bookingId == booking.bookingId) then
    Except.error "Payment already exists for this booking"
  else
    let payment : Payment := { bookingId := booking.bookingId }
    Except.ok ({ st with payments := st.payments ++ [payment] }, payment)

/-- PaymentResponse DTO (payment payload omitted). -/
structure PaymentResponse where
  success : Bool
  message : String
deriving DecidableEq

/-- PaymentController.processPayment: looks the booking up (absent booking is
a "Booking not found" failure without state change), runs the payment service
(an exception is reported as "Payment failed: ..." without state change), and
on success sets the booking status to BOOKED and saves it. -/
def PaymentController.processPayment (st : SysState) (requestBookingId : String) :
    SysState × PaymentResponse :=
  match BookingService.getBookingById st requestBookingId with
  | none => (st, { success := false, message := "Booking not found" })
  | some booking =>
    match PaymentService.processPayment st booking with
    | Except.error msg => (st, { success := false, message := "Payment failed: " ++ msg })
    | Except.ok (st1, _) =>
      let booked : Booking := { booking with parcelStatus := ParcelStatus.BOOKED }
      (BookingService.updateBooking st1 booked,
        { success := true, message := "Payment processed successfully" })

/-- After replacing every row satisfying the lookup predicate, a lookup that
previously succeeded returns the replacement. -/
theorem find_replaced (p : Booking → Bool) (c : Booking) (hc : p c = true) :
    ∀ (l : List Booking) (b : Booking), l.find? p = some b →
      (l.map (fun x => if p x then c else x)).find? p = some c := by
  intro l
  induction l with
  | nil => intro b h; simp at h
  | cons hd tl ih =>
    intro b h
    by_cases hhd : p hd = true
    · simp only [List.map_cons, if_pos hhd]
      exact List.find?_cons_of_pos _ hc
    · rw [List.find?_cons_of_neg _ hhd] at h
      simp only [List.map_cons, if_neg hhd]
      rw [List.find?_cons_of_neg _ hhd]
      exact ih b h

/-- C2: processing a payment succeeds at most once. For a NEW booking with no
existing payment, the first request succeeds, moves the status to BOOKED and
persists a Payment row; the second request for the same booking fails with
the duplicate-payment conflict and changes nothing. -/
theorem payment_processing_succeeds_at_most_once
    (st : SysState) (bid : String) (b : Booking)
    (h1 : BookingService.getBookingById st bid = some b)
    (_h2 : b.parcelStatus = ParcelStatus.NEW)
    (h3 : st.payments.any (fun p => p.bookingId == b.bookingId) = false) :
    (PaymentController.processPayment st bid).2 =
      { success := true, message := "Payment processed successfully" } ∧
    BookingService.getBookingById (PaymentController.processPayment st bid).1 bid =
      some { b with parcelStatus := ParcelStatus.BOOKED } ∧
    (PaymentController.processPayment st bid).1.payments.any
      (fun p => p.bookingId == bid) = true ∧
    (PaymentController.processPayment (PaymentController.processPayment st bid).1 bid).1 =
      (PaymentController.processPayment st bid).1 ∧
    (PaymentController.processPayment (PaymentController.processPayment st bid).1 bid).2 =
      { success := false,
        message := "Payment failed: Payment already exists for this booking" } := by
  have h1f : st.bookings.find? (fun x => x.bookingId == bid) = some b := h1
  have hbs : b.bookingId = bid := by
    have hp := List.find?_some h1f
    simpa using hp
  have hfirst : PaymentController.processPayment st bid =
      (BookingService.updateBooking
        { st with payments := st.payments ++ [{ bookingId := b.bookingId }] }
        { b with parcelStatus := ParcelStatus.BOOKED },
       { success := true, message := "Payment processed successfully" }) := by
    simp only [PaymentController.processPayment, h1]
    simp only [PaymentService.processPayment, h3]
    simp
  have hlook : BookingService.getBookingById
      (BookingService.updateBooking
        { st with payments := st.payments ++ [{ bookingId := b.bookingId }] }
        { b with parcelStatus := ParcelStatus.BOOKED }) bid =
      some { b with parcelStatus := ParcelStatus.BOOKED } := by
    simp only [BookingService.getBookingById, BookingService.updateBooking]
    simp only [hbs]
    exact find_replaced (fun x => x.bookingId == bid)
      { bookingId := bid, parcelStatus := ParcelStatus.BOOKED } (by simp) st.bookings b h1
  have hpay : (BookingService.updateBooking
      { st with payments := st.payments ++ [{ bookingId := b.bookingId }] }
      { b with parcelStatus := ParcelStatus.BOOKED }).payments.any
      (fun p => p.bookingId == bid) = true := by
    simp [BookingService.updateBooking, hbs]
  have hsecond : PaymentController.processPayment
      (BookingService.updateBooking
        { st with payments := st.payments ++ [{ bookingId := b.bookingId }] }
        { b with parcelStatus := ParcelStatus.BOOKED }) bid =
      (BookingService.updateBooking
        { st with payments := st.payments ++ [{ bookingId := b.bookingId }] }
        { b with parcelStatus := ParcelStatus.BOOKED },
       { success := false,
         message := "Payment failed: Payment already exists for this booking" }) := by
    simp only [PaymentController.processPayment, hlook]
    have hany : (BookingService.updateBooking
        { st with payments := st.payments ++ [{ bookingId := b.bookingId }] }
        { b with parcelStatus := ParcelStatus.BOOKED }).payments.any
        (fun p => p.bookingId ==
          (Booking.mk b.bookingId ParcelStatus.BOOKED).bookingId) = true := by
      simp [BookingService.updateBooking]
    simp only [PaymentService.processPayment]
    simp [hany]
  rw [hfirst]
  exact ⟨rfl, hlook, hpay, by rw [hsecond], by rw [hsecond]⟩

/-- A one-booking, no-payment state used as witness input: a NEW customer
booking awaiting payment. -/
def newBookingState : SysState :=
  { bookings := [{ bookingId := "BK1001", parcelStatus := ParcelStatus.NEW }]
    payments := [] }

/-- Witness for C2 on the concrete NEW booking BK1001. -/
theorem payment_processing_succeeds_at_most_once_witness :
    (PaymentController.processPayment newBookingState "BK1001").2 =
      { success := true, message := "Payment processed successfully" } ∧
    BookingService.getBookingById
      (PaymentController.processPayment newBookingState "BK1001").1 "BK1001" =
      some { bookingId := "BK1001", parcelStatus := ParcelStatus.BOOKED } ∧
    (PaymentController.processPayment newBookingState "BK1001").1.payments.any
      (fun p => p.bookingId == "BK1001") = true ∧
    (PaymentController.processPayment
      (PaymentController.processPayment newBookingState "BK1001").1 "BK1001").1 =
      (PaymentController.processPayment newBookingState "BK1001").1 ∧
    (PaymentController.processPayment
      (PaymentController.processPayment newBookingState "BK1001").1 "BK1001").2 =
      { success := false,
        message := "Payment failed: Payment already exists for this booking" } :=
  payment_processing_succeeds_at_most_once newBookingState "BK1001"
    { bookingId := "BK1001", parcelStatus := ParcelStatus.NEW } (by decide) rfl rfl

/-- A state holding a DELIVERED booking that has no Payment row (the officer
booking flow creates bookings directly at BOOKED without a payment, and the
delivery progression never creates one). -/
def deliveredNoPaymentState : SysState :=
  { bookings := [{ bookingId := "BK2002", parcelStatus := ParcelStatus.DELIVERED }]
    payments := [] }

/-- C3 evaluation at the failing input: PaymentController.processPayment does
not guard on the current status, so on a DELIVERED booking without a Payment
row the request SUCCEEDS and resets the status to BOOKED — DELIVERED is not
terminal in the code, contradicting the documented state machine. -/
theorem payment_on_delivered_booking_resets_status_to_booked :
    BookingService.getBookingById deliveredNoPaymentState "BK2002" =
      some { bookingId := "BK2002", parcelStatus := ParcelStatus.DELIVERED } ∧
    (PaymentController.processPayment deliveredNoPaymentState "BK2002").2.success = true ∧
    BookingService.getBookingById
      (PaymentController.processPayment deliveredNoPaymentState "BK2002").1 "BK2002" =
      some { bookingId := "BK2002", parcelStatus := ParcelStatus.BOOKED } := by
  decide

/-- C10: BookingService.getBookingById is total — for every state and every
input string it returns either a booking whose bookingId is the requested one,
or none; and when it returns none, PaymentController.processPayment answers
with the "Booking not found" failure and leaves the state unchanged. -/
theorem getBookingById_total_and_not_found_is_safe (st : SysState) (bid : String) :
    (∀ bk, BookingService.getBookingById st bid = some bk → bk.bookingId = bid) ∧
    (BookingService.getBookingById st bid = none →
      PaymentController.processPayment st bid =
        (st, { success := false, message := "Booking not found" })) := by
  constructor
  · intro bk hbk
    have hbkf : st.bookings.find? (fun x => x.bookingId == bid) = some bk := hbk
    have hp := List.find?_some hbkf
    simpa using hp
  · intro hnone
    simp only [PaymentController.processPayment, hnone]

/-- Witness for C10 on the empty state: the lookup misses and the payment
request is answered with the not-found failure, unchanged state. -/
theorem getBookingById_total_witness :
    PaymentController.processPayment { bookings := [], payments := [] } "BK404" =
      ({ bookings := [], payments := [] },
        { success := false, message := "Booking not found" }) :=
  (getBookingById_total_and_not_found_is_safe
    { bookings := [], payments := [] } "BK404").2 rfl

/-! ## Feedback listing: pagination and filter adapter
(FeedbackService.getOfficerFeedbackPaginated, FeedbackRepository) -/

/-- Does the needle occur at the head of the haystack? -/
def charsStartsWith : List Char → List Char → Bool
  | _, [] => true
  | [], _ :: _ => false
  | c :: cs, d :: ds => c == d && charsStartsWith cs ds

/-- Does the needle occur anywhere in the haystack (contiguously)? -/
def charsContains (haystack needle : List Char) : Bool :=
  match haystack with
  | [] => needle.isEmpty
  | _ :: rest => charsStartsWith haystack needle || charsContains rest needle

/-- SQL LOWER(x) LIKE LOWER(CONCAT(percent, needle, percent)) from the
FeedbackRepository queries: case-insensitive substring containment. -/
def containsIgnoreCase (s needle : String) : Bool :=
  charsContains (s.toList.map Char.toLower) (needle.toList.map Char.toLower)

/-- Java String.trim: strips leading and trailing characters with code point
at most U+0020. -/
def javaTrim (s : String) : String :=
  String.mk (((s.toList.dropWhile (fun c => c.toNat ≤ 32)).reverse.dropWhile
    (fun c => c.toNat ≤ 32)).reverse)

/-- Feedback row joined with its customer and booking, reduced to the fields
the officer listing filter reads. -/
structure Feedback where
  customerName : String
  bookingId : String
  feedbackDescription : String
  rating : Nat
deriving DecidableEq

/-- Spring Data Page as surfaced to the frontend: content plus metadata. -/
structure FeedbackPage where
  content : List Feedback
  totalElements : Nat
  totalPages : Nat
  pageNumber : Nat
  pageSize : Nat
deriving DecidableEq

/-- Spring Page.hasContent(). -/
def FeedbackPage.hasContent (p : FeedbackPage) : Bool := ¬ p.content.isEmpty

/-- A PageRequest.of(page, size) slice of a result list with Spring's
metadata (ceiling division for the page count). -/
def pageOf (l : List Feedback) (page size : Nat) : FeedbackPage :=
  { content := (l.drop (page * size)).take size
    totalElements := l.length
    totalPages := (l.length + size - 1) / size
    pageNumber := page
    pageSize := size }

/-- FeedbackRepository.findAll(pageable). -/
def FeedbackRepository.findAll (repo : List Feedback) (page size : Nat) : FeedbackPage :=
  pageOf repo page size

/-- FeedbackRepository.findByCustomerNameContainingIgnoreCase. -/
def FeedbackRepository.findByCustomerName (repo : List Feedback) (needle : String)
    (page size : Nat) : FeedbackPage :=
  pageOf (repo.filter (fun f => containsIgnoreCase f.customerName needle)) page size

/-- FeedbackRepository.findByBookingIdContainingIgnoreCase. -/
def FeedbackRepository.findByBookingId (repo : List Feedback) (needle : String)
    (page size : Nat) : FeedbackPage :=
  pageOf (repo.filter (fun f => containsIgnoreCase f.bookingId needle)) page size

/-- FeedbackRepository.findByFeedbackDescriptionContainingIgnoreCase. -/
def FeedbackRepository.findByDescription (repo : List Feedback) (needle : String)
    (page size : Nat) : FeedbackPage :=
  pageOf (repo.filter (fun f => containsIgnoreCase f.feedbackDescription needle)) page size

/-- FeedbackService.getOfficerFeedbackPaginated: with a non-blank filter, try
customer name, then booking id, then description, returning the first page
that has content; with no hits on all three, the code executes
feedbackRepository.findAll(PageRequest.of(0, pageable.getPageSize())) — the
unfiltered first page — despite its comment announcing an empty page. With a
null or blank filter, return the requested findAll page. -/
def FeedbackService.getOfficerFeedbackPaginated (repo : List Feedback)
    (page size : Nat) (filter : Option String) : FeedbackPage :=
  match filter with
  | none => FeedbackRepository.findAll repo page size
  | some f =>
    if javaTrim f = "" then FeedbackRepository.findAll repo page size
    else
      let trimmedFilter := javaTrim f
      let customerResults := FeedbackRepository.findByCustomerName repo trimmedFilter page size
      if customerResults.hasContent then customerResults
      else
        let bookingResults := FeedbackRepository.findByBookingId repo trimmedFilter page size
        if bookingResults.hasContent then bookingResults
        else
          let descriptionResults := FeedbackRepository.findByDescription repo trimmedFilter page size
          if descriptionResults.hasContent then descriptionResults
          else FeedbackRepository.findAll repo 0 size

/-- A one-row feedback table. -/
def feedbackRepo : List Feedback :=
  [{ customerName := "Alice"
     bookingId := "BK1"
     feedbackDescription := "Great service"
     rating := 5 }]

/-- C4 evaluation at the failing input: the filter string zzz matches no
customer name, no booking id and no description, yet the listing returns the
full unfiltered first page with totalElements 1, not an empty page with
totalElements 0. -/
theorem feedback_filter_no_match_returns_unfiltered_page :
    containsIgnoreCase "Alice" "zzz" = false ∧
    containsIgnoreCase "BK1" "zzz" = false ∧
    containsIgnoreCase "Great service" "zzz" = false ∧
    (FeedbackService.getOfficerFeedbackPaginated feedbackRepo 0 10 (some "zzz")).totalElements = 1 ∧
    (FeedbackService.getOfficerFeedbackPaginated feedbackRepo 0 10 (some "zzz")).content =
      feedbackRepo := by
  decide

end Courier
